import Mathlib

/-!
Shallow embedding of the unit-of-work / repository / event-publisher slice of
the e-commerce users backend (`app/database/repository.py`,
`app/database/manager.py`, `app/sb/client.py`, `app/common/security.py`,
`app/users/router.py`), together with theorems settling the spec claims.

Conventions of the embedding:
* a SQL row store is a `List` of row structures; `select ... where` is
  `List.filter` / `List.find?` (the SQLAlchemy `first()` is the head of the
  result, i.e. `find?`);
* the opaque boolean-predicate language (`ColumnExpressionArgument[bool]`)
  is embedded as Lean boolean predicates on rows; `where(*args)` AND-s them;
* UUIDs and timestamps are `Nat` values supplied by the caller or drawn from
  a fresh counter in the session state;
* fallible operations return `Except`/`Option`.
-/

/-- A row of a table managed by the soft-delete repository: a primary key,
the remaining (claim-irrelevant) columns collapsed to `data`, and the two
columns added by `DeletedMixin` (`app/database/models.py`). -/
structure SoftRow where
  id : Nat
  data : String
  deleted_at : Option Nat
  deleted_by : Option String
deriving Repr, DecidableEq

/-- A column filter, as passed to `list`/`get_one`/`delete` via
`*args : ColumnExpressionArgument[bool]`. -/
abbrev SoftPred := SoftRow → Bool

/-- `where(*args)`: all filters AND-ed together. -/
def matchesAll (preds : List SoftPred) (r : SoftRow) : Bool :=
  preds.all (fun p => p r)

/-- `BaseRepository.get`: `session.get(self.model, pk)` — primary-key lookup. -/
def base_get (store : List SoftRow) (pk : Nat) : Option SoftRow :=
  store.find? (fun r => r.id == pk)

/-- `BaseRepository.list`: `select(self.model).where(*args)`, all rows. -/
def base_list (store : List SoftRow) (preds : List SoftPred) : List SoftRow :=
  store.filter (matchesAll preds)

/-- `BaseRepository.get_one`: `select(self.model).where(*args)`, `first()`. -/
def base_get_one (store : List SoftRow) (preds : List SoftPred) : Option SoftRow :=
  store.find? (matchesAll preds)

/-- `BaseRepository.delete`: `delete(self.model).where(*args)`; returns the
surviving store and the `rowcount` of physically removed rows. -/
def base_delete (store : List SoftRow) (preds : List SoftPred) : List SoftRow × Nat :=
  (store.filter (fun r => !(matchesAll preds r)),
   (store.filter (matchesAll preds)).length)

/-- `SoftBaseRepository.get`:
`select(self.model).where(and_(self.model.id == pk, column("deleted_by").is_(None)))`,
`first()`. -/
def soft_get (store : List SoftRow) (pk : Nat) : Option SoftRow :=
  store.find? (fun r => r.id == pk && r.deleted_by.isNone)

/-- `SoftBaseRepository.list`: `super().list(*args, self.model.deleted_by.is_(None))`. -/
def soft_list (store : List SoftRow) (preds : List SoftPred) : List SoftRow :=
  base_list store (preds ++ [fun r => r.deleted_by.isNone])

/-- `SoftBaseRepository` does not override `get_one`; it inherits
`BaseRepository.get_one`, which applies no soft-delete filter. -/
def soft_get_one (store : List SoftRow) (preds : List SoftPred) : Option SoftRow :=
  base_get_one store preds

/-- `if not deleted_by: deleted_by = "Mr Unknown"` — a `None` or empty actor
string is replaced by the literal placeholder used in the source. -/
def actorOrDefault : Option String → String
  | none => "Mr Unknown"
  | some s => if s = "" then "Mr Unknown" else s

/-- The SET clause of `SoftBaseRepository.delete`:
`.values(deleted_by=deleted_by, deleted_at=deleted_at)` applied to a row when
it matches the filter, the row untouched otherwise. -/
def softMark (preds : List SoftPred) (now : Nat) (actor : String) (x : SoftRow) : SoftRow :=
  if matchesAll preds x then
    { x with deleted_at := some now, deleted_by := some actor }
  else x

/-- `SoftBaseRepository.delete`: `update(self.model).where(*args)
.values(deleted_by=deleted_by, deleted_at=deleted_at)` — an in-place update of
matching rows, returning the updated store and the `rowcount`. -/
def soft_delete (store : List SoftRow) (preds : List SoftPred) (now : Nat)
    (deleted_by : Option String) : List SoftRow × Nat :=
  let actor := actorOrDefault deleted_by
  (store.map (softMark preds now actor),
   (store.filter (matchesAll preds)).length)

/-- The soft-delete update never changes a row's primary key. -/
theorem softMark_id (preds : List SoftPred) (now : Nat) (actor : String)
    (x : SoftRow) : (softMark preds now actor x).id = x.id := by
  by_cases h : matchesAll preds x <;> simp [softMark, h]

/-- After the soft-delete update, a primary-key lookup through the base
repository still finds each matched row, with both deletion columns set
(assuming, as the database guarantees, that primary keys are unique). -/
theorem base_get_after_softMark (preds : List SoftPred) (now : Nat)
    (actor : String) (store : List SoftRow) (r : SoftRow) (hmem : r ∈ store)
    (hmatch : matchesAll preds r = true)
    (huniq : ∀ q, q ∈ store → q.id = r.id → q = r) :
    base_get (store.map (softMark preds now actor)) r.id =
      some { r with deleted_at := some now, deleted_by := some actor } := by
  induction store with
  | nil => cases hmem
  | cons a tl ih =>
    simp only [List.map_cons, base_get]
    by_cases ha : a = r
    · subst ha
      rw [List.find?_cons_of_pos _ (by simp [softMark_id])]
      simp [softMark, hmatch]
    · have hne : a.id ≠ r.id := fun hid => ha (huniq a (List.mem_cons_self a tl) hid)
      rw [List.find?_cons_of_neg _ (by simp [softMark_id, hne])]
      have hmem' : r ∈ tl := by
        rcases List.mem_cons.mp hmem with h | h
        · exact absurd h.symm ha
        · exact h
      exact ih hmem' (fun q hq hqid => huniq q (List.mem_cons_of_mem a hq) hqid)

-- Concrete rows used by the counterexamples and witnesses.

/-- A live row, before any soft delete. -/
def cexRow0 : SoftRow := { id := 1, data := "x", deleted_at := none, deleted_by := none }

/-- The same row after `soft_delete` at time 5 by actor "admin". -/
def cexRow1 : SoftRow := { id := 1, data := "x", deleted_at := some 5, deleted_by := some "admin" }

/-- C1 counterexample: the claim says `getOne` through the soft-delete
repository never returns a soft-deleted row.  But `SoftBaseRepository` does
not override `get_one`: after soft-deleting the only row of the store, the
soft repository's `get_one` (with no extra filter) still returns that row,
whose `deleted_at`/`deleted_by` are set. -/
theorem C1_getOne_counterexample :
    (soft_delete [cexRow0] [] 5 (some "admin")).fst = [cexRow1]
    ∧ soft_get_one [cexRow1] [] = some cexRow1
    ∧ cexRow1.deleted_by = some "admin"
    ∧ cexRow1.deleted_at = some 5 := by
  refine ⟨rfl, rfl, rfl, rfl⟩

/-- C1 (amended): `get` and `list` through the soft-delete repository never
return a row whose `deleted_by` is set (in particular never a soft-deleted
row, which has both deletion columns set); and after a `soft_delete` every
row remains physically present — the store keeps its length, and the base
repository's `get` still finds each matched row, now carrying both
`deleted_at = now` and `deleted_by` set together.  (`get_one` is inherited
unfiltered and is excluded from the amended claim.) -/
theorem C1_soft_visibility (store : List SoftRow) (pk : Nat)
    (preds : List SoftPred) (now : Nat) (actor : Option String) :
    (∀ r, soft_get store pk = some r → r.deleted_by = none ∧ r.id = pk)
    ∧ (∀ r, r ∈ soft_list store preds → r.deleted_by = none)
    ∧ (soft_delete store preds now actor).fst.length = store.length
    ∧ (∀ r, r ∈ store → matchesAll preds r = true →
        (∀ q, q ∈ store → q.id = r.id → q = r) →
        base_get (soft_delete store preds now actor).fst r.id =
          some { r with deleted_at := some now,
                        deleted_by := some (actorOrDefault actor) }) := by
  refine ⟨?_, ?_, by simp [soft_delete], ?_⟩
  · intro r hr
    have h := List.find?_some hr
    simp only [Bool.and_eq_true, beq_iff_eq, Option.isNone_iff_eq_none] at h
    exact ⟨h.2, h.1⟩
  · intro r hr
    have h := List.of_mem_filter hr
    simp only [matchesAll, List.all_append, Bool.and_eq_true, List.all_cons,
      List.all_nil, Bool.and_true, Option.isNone_iff_eq_none] at h
    exact h.2
  · intro r hmem hmatch huniq
    exact base_get_after_softMark preds now (actorOrDefault actor) store r hmem hmatch huniq

/-- Witness for `C1_soft_visibility` at a concrete store. -/
theorem C1_soft_visibility_witness :
    (∀ r, soft_get [cexRow0] 1 = some r → r.deleted_by = none ∧ r.id = 1)
    ∧ (∀ r, r ∈ soft_list [cexRow0] [] → r.deleted_by = none)
    ∧ (soft_delete [cexRow0] [] 5 (some "admin")).fst.length = [cexRow0].length
    ∧ (∀ r, r ∈ [cexRow0] → matchesAll [] r = true →
        (∀ q, q ∈ [cexRow0] → q.id = r.id → q = r) →
        base_get (soft_delete [cexRow0] [] 5 (some "admin")).fst r.id =
          some { r with deleted_at := some 5,
                        deleted_by := some (actorOrDefault (some "admin")) }) :=
  C1_soft_visibility [cexRow0] 1 [] 5 (some "admin")

/-- C4 counterexample: the claim says the default actor when none is supplied
is the string "unknown"; the source writes `deleted_by = "Mr Unknown"`. -/
theorem C4_default_actor_counterexample :
    ((soft_delete [cexRow0] [] 5 none).fst.map (fun r => r.deleted_by))
      = [some "Mr Unknown"]
    ∧ some "Mr Unknown" ≠ (some "unknown" : Option String) := by
  exact ⟨rfl, by decide⟩

/-- C4 (amended): `soft_delete` removes no row (length preserved); every
matched row is updated in place with `deleted_at = now` and `deleted_by` the
supplied actor — defaulting to "Mr Unknown" when the actor is absent or
empty — both fields assigned together in the same update; unmatched rows are
untouched; a row of the result is still live exactly when it is an untouched
live row of the input; and the returned count is the number of matched rows. -/
theorem C4_soft_delete_spec (store : List SoftRow) (preds : List SoftPred)
    (now : Nat) (actor : Option String) :
    (soft_delete store preds now actor).fst.length = store.length
    ∧ (soft_delete store preds now actor).snd = (store.filter (matchesAll preds)).length
    ∧ (∀ r, r ∈ store → matchesAll preds r = true →
        { r with deleted_at := some now,
                 deleted_by := some (actorOrDefault actor) }
          ∈ (soft_delete store preds now actor).fst)
    ∧ (∀ r, r ∈ store → matchesAll preds r = false →
        r ∈ (soft_delete store preds now actor).fst)
    ∧ (∀ r, r ∈ (soft_delete store preds now actor).fst →
        (r.deleted_at = none ↔ r ∈ store ∧ matchesAll preds r = false ∧ r.deleted_at = none))
    ∧ actorOrDefault none = "Mr Unknown"
    ∧ actorOrDefault (some "") = "Mr Unknown"
    ∧ (∀ s, s ≠ "" → actorOrDefault (some s) = s) := by
  refine ⟨by simp [soft_delete], rfl, ?_, ?_, ?_, rfl, rfl, ?_⟩
  · intro r hr hm
    simp only [soft_delete, List.mem_map]
    exact ⟨r, hr, by simp [softMark, hm]⟩
  · intro r hr hm
    simp only [soft_delete, List.mem_map]
    exact ⟨r, hr, by simp [softMark, hm]⟩
  · intro r hr
    simp only [soft_delete, List.mem_map] at hr
    obtain ⟨q, hq, hqr⟩ := hr
    constructor
    · intro hnone
      by_cases hm : matchesAll preds q = true
      · rw [← hqr] at hnone
        simp [softMark, hm] at hnone
      · simp only [Bool.not_eq_true] at hm
        have : softMark preds now (actorOrDefault actor) q = q := by
          simp [softMark, hm]
        rw [this] at hqr
        subst hqr
        exact ⟨hq, hm, hnone⟩
    · rintro ⟨-, -, hnone⟩
      exact hnone
  · intro s hs
    simp [actorOrDefault, hs]

/-- Witness for `C4_soft_delete_spec` at a concrete store. -/
theorem C4_soft_delete_spec_witness :
    (soft_delete [cexRow0] [] 7 none).fst.length = [cexRow0].length
    ∧ (soft_delete [cexRow0] [] 7 none).snd = ([cexRow0].filter (matchesAll [])).length
    ∧ (∀ r, r ∈ [cexRow0] → matchesAll [] r = true →
        { r with deleted_at := some 7,
                 deleted_by := some (actorOrDefault none) }
          ∈ (soft_delete [cexRow0] [] 7 none).fst)
    ∧ (∀ r, r ∈ [cexRow0] → matchesAll [] r = false →
        r ∈ (soft_delete [cexRow0] [] 7 none).fst)
    ∧ (∀ r, r ∈ (soft_delete [cexRow0] [] 7 none).fst →
        (r.deleted_at = none ↔ r ∈ [cexRow0] ∧ matchesAll [] r = false ∧ r.deleted_at = none))
    ∧ actorOrDefault none = "Mr Unknown"
    ∧ actorOrDefault (some "") = "Mr Unknown"
    ∧ (∀ s, s ≠ "" → actorOrDefault (some s) = s) :=
  C4_soft_delete_spec [cexRow0] [] 7 none

/-!
## Session and unit-of-work model

`app/database/session.py` builds sessions with `autocommit=False,
autoflush=False`; `app/database/manager.py` wraps one session as a unit of
work.  The session state is: the durable store `db`, the rows inserted and
flushed inside the open transaction `tx` (these are in the identity map, so
`session.get` sees them before querying `db`), the staged-but-unflushed rows
`new`, and a counter `nextId` standing for the `uuid4` primary-key default
of `app/users/models.py` (fresh value per flushed insert).
-/

/-- A row of the `users` table (`app/users/models.py`); server-assigned
timestamps are outside every claim and are omitted.  `hashed_password` is
the stored `password` column, written through the one-way setter. -/
structure UserRow where
  id : Option Nat
  first_name : String
  last_name : Option String
  email : String
  hashed_password : String
  phone : String
  address : String
  role : String
  created_by : String
  updated_by : String
deriving Repr, DecidableEq

/-- The `S.CreateUser` input DTO (`app/users/schemas.py`): the `BaseUser`
fields plus the write-only `password`. -/
structure CreateUserDTO where
  first_name : String
  last_name : Option String
  email : String
  phone : String
  address : String
  role : String
  created_by : String
  updated_by : String
  password : String
deriving Repr, DecidableEq

/-- The opaque one-way password transform (`bcrypt.hashpw` in
`User.password.setter`); modelled as an injective tagging function. -/
def hashPassword (raw : String) : String := "bcrypt$" ++ raw

/-- `self.model(**input_model.model_dump())`: constructing the ORM object
from the DTO.  The `password` kwarg goes through the hashing setter; `id`
stays unassigned until flush applies the `uuid4` column default. -/
def mkUser (dto : CreateUserDTO) : UserRow :=
  { id := none
    first_name := dto.first_name
    last_name := dto.last_name
    email := dto.email
    hashed_password := hashPassword dto.password
    phone := dto.phone
    address := dto.address
    role := dto.role
    created_by := dto.created_by
    updated_by := dto.updated_by }

/-- Database errors surfaced by the driver at flush/commit time. -/
inductive DbErr
  | integrityError
deriving Repr, DecidableEq

/-- State of one SQLAlchemy session. -/
structure Session where
  db : List UserRow
  tx : List UserRow
  new : List UserRow
  nextId : Nat
deriving Repr, DecidableEq

/-- Flush one pending row: the `uuid4` default assigns the primary key, and
the UNIQUE constraint on `email` (declared `unique=True` in
`app/users/models.py` and enforced by the database) rejects a duplicate
with an `IntegrityError`. -/
def flushOne (s : Session) (r : UserRow) : Except DbErr Session :=
  if (s.db ++ s.tx).any (fun q => q.email == r.email) then
    .error .integrityError
  else
    .ok { s with tx := s.tx ++ [{ r with id := some s.nextId }],
                 nextId := s.nextId + 1 }

/-- Process a list of pending rows in order, stopping at the first error. -/
def flushPending (s : Session) : List UserRow → Except DbErr Session
  | [] => .ok s
  | r :: rest =>
    match flushOne s r with
    | .error e => .error e
    | .ok s1 => flushPending s1 rest

/-- `session.flush()`: push all staged rows into the open transaction. -/
def flushSession (s : Session) : Except DbErr Session :=
  flushPending { s with new := [] } s.new

/-- `session.get(model, pk)`: the identity map (flushed rows of the open
transaction) is consulted first, then the durable store. -/
def sessionGet (s : Session) (pk : Nat) : Option UserRow :=
  match s.tx.find? (fun r => r.id == some pk) with
  | some r => some r
  | none => s.db.find? (fun r => r.id == some pk)

/-- `BaseRepository.add`: construct the ORM object, `session.add` it, and,
when `flush` is set, `session.flush()` so the generated key is assigned;
the object handed back is the flushed one (the last row entering `tx`). -/
def addRepo (s : Session) (dto : CreateUserDTO) (flush : Bool) :
    Except DbErr (UserRow × Session) :=
  let r := mkUser dto
  let s1 := { s with new := s.new ++ [r] }
  if flush then
    match flushSession s1 with
    | .error e => .error e
    | .ok s2 =>
      match s2.tx.getLast? with
      | some m => .ok (m, s2)
      | none => .error .integrityError
  else
    .ok (r, s1)

/-- `session.commit()`: flush whatever is still pending, then make the open
transaction durable. -/
def commitSession (s : Session) : Except DbErr Session :=
  match flushSession s with
  | .error e => .error e
  | .ok s1 => .ok { s1 with db := s1.db ++ s1.tx, tx := [] }

/-- `session.rollback()`: discard the open transaction and staged rows. -/
def rollbackSession (s : Session) : Session :=
  { s with tx := [], new := [] }

/-- `session.close()`: release the connection; an open (uncommitted)
transaction is discarded. -/
def closeSession (s : Session) : Session :=
  { s with tx := [], new := [] }

/-- Actions the manager performs on the session, in order. -/
inductive MgrEv
  | commitEv
  | rollbackEv
  | closeEv
deriving Repr, DecidableEq

/-- `DatabaseManager.__exit__` (`app/database/manager.py`): under
`try/except SQLAlchemyError/finally`, rollback is attempted exactly when an
exception is pending; a rollback failure is re-raised; `close` runs in the
`finally` on every path.  Exceptions are abstracted to `Nat` identities:
`exc` is the in-flight exception (the method returns `None`, so a pending
exception always propagates), `rollbackErr` a failure of `rollback()`
itself.  The result is the final session, the ordered action trace, and the
exception that propagates out of the scope. -/
def dbExit (s : Session) (exc : Option Nat) (rollbackErr : Option Nat) :
    Session × List MgrEv × Option Nat :=
  match exc with
  | none => (closeSession s, [MgrEv.closeEv], none)
  | some e =>
    match rollbackErr with
    | none => (closeSession (rollbackSession s), [MgrEv.rollbackEv, MgrEv.closeEv], some e)
    | some r => (closeSession s, [MgrEv.rollbackEv, MgrEv.closeEv], some r)

/-- C2: on every exit of the unit-of-work scope no commit is performed
implicitly and the session is closed (its durable store unchanged, its
uncommitted state discarded); on a normal exit nothing propagates; on an
exceptional exit rollback is attempted before close and the exception
re-raised, and if rollback itself fails the session is still closed and the
rollback failure propagates instead. -/
theorem C2_uow_exit_contract (s : Session) (exc rollbackErr : Option Nat) :
    MgrEv.commitEv ∉ (dbExit s exc rollbackErr).2.1
    ∧ (dbExit s exc rollbackErr).2.1.getLast? = some MgrEv.closeEv
    ∧ (dbExit s exc rollbackErr).1.db = s.db
    ∧ (dbExit s exc rollbackErr).1.tx = []
    ∧ (dbExit s exc rollbackErr).1.new = []
    ∧ (exc = none →
        (dbExit s exc rollbackErr).2.2 = none
        ∧ (dbExit s exc rollbackErr).2.1 = [MgrEv.closeEv])
    ∧ (∀ e, exc = some e →
        (dbExit s exc rollbackErr).2.1 = [MgrEv.rollbackEv, MgrEv.closeEv]
        ∧ (rollbackErr = none → (dbExit s exc rollbackErr).2.2 = some e)
        ∧ (∀ r, rollbackErr = some r → (dbExit s exc rollbackErr).2.2 = some r)) := by
  cases exc <;> cases rollbackErr <;>
    simp [dbExit, closeSession, rollbackSession]

/-- Witness for `C2_uow_exit_contract` at a concrete session and exception. -/
theorem C2_uow_exit_contract_witness :
    MgrEv.commitEv ∉ (dbExit ⟨[], [], [], 0⟩ (some 3) none).2.1
    ∧ (dbExit ⟨[], [], [], 0⟩ (some 3) none).2.1.getLast? = some MgrEv.closeEv
    ∧ (dbExit ⟨[], [], [], 0⟩ (some 3) none).1.db = Session.db ⟨[], [], [], 0⟩
    ∧ (dbExit ⟨[], [], [], 0⟩ (some 3) none).1.tx = []
    ∧ (dbExit ⟨[], [], [], 0⟩ (some 3) none).1.new = []
    ∧ ((some 3 : Option Nat) = none →
        (dbExit ⟨[], [], [], 0⟩ (some 3) none).2.2 = none
        ∧ (dbExit ⟨[], [], [], 0⟩ (some 3) none).2.1 = [MgrEv.closeEv])
    ∧ (∀ e, (some 3 : Option Nat) = some e →
        (dbExit ⟨[], [], [], 0⟩ (some 3) none).2.1 = [MgrEv.rollbackEv, MgrEv.closeEv]
        ∧ ((none : Option Nat) = none → (dbExit ⟨[], [], [], 0⟩ (some 3) none).2.2 = some e)
        ∧ (∀ r, (none : Option Nat) = some r → (dbExit ⟨[], [], [], 0⟩ (some 3) none).2.2 = some r)) :=
  C2_uow_exit_contract ⟨[], [], [], 0⟩ (some 3) none

/-- A concrete create-user DTO for witnesses. -/
def demoDTO : CreateUserDTO :=
  { first_name := "Kittu", last_name := none, email := "kittu@example.com"
    phone := "123", address := "{}", role := "ADMIN"
    created_by := "admin", updated_by := "admin", password := "kittu@123" }

/-- C8: within one unit of work started on a clean session, `add(dto,
flush=True)` on a store without the DTO's email succeeds, hands back an
entity whose generated primary key is assigned (non-empty) without any
commit having happened, and `get` with that key inside the same session
returns that same entity. -/
theorem C8_add_flush_get (s : Session) (dto : CreateUserDTO)
    (hnew : s.new = []) (htx : s.tx = [])
    (hfresh : s.db.all (fun q => !(q.email == dto.email)) = true) :
    ∃ m s2, addRepo s dto true = .ok (m, s2)
      ∧ m.id.isSome = true
      ∧ m.id = some s.nextId
      ∧ sessionGet s2 s.nextId = some m
      ∧ s2.db = s.db := by
  obtain ⟨db, tx, new, n⟩ := s
  simp only at hnew htx hfresh ⊢
  subst hnew htx
  have hany : (db ++ ([] : List UserRow)).any
      (fun q => q.email == (mkUser dto).email) = false := by
    rw [List.any_eq_false]
    intro x hx
    simp only [List.append_nil] at hx
    have hall := List.all_eq_true.mp hfresh x hx
    simp only [mkUser]
    simpa using hall
  refine ⟨{ mkUser dto with id := some n },
    { db := db, tx := [{ mkUser dto with id := some n }], new := [], nextId := n + 1 },
    ?_, rfl, rfl, ?_, rfl⟩
  · have hprop : ¬ ∃ x ∈ db, x.email = (mkUser dto).email := by
      simpa using hany
    simp [addRepo, flushSession, flushPending, flushOne, hprop]
  · simp [sessionGet]

/-- Witness for `C8_add_flush_get` on the empty store. -/
theorem C8_add_flush_get_witness :
    (Session.new ⟨[], [], [], 0⟩ = [])
    ∧ (Session.tx ⟨[], [], [], 0⟩ = [])
    ∧ ((Session.db ⟨[], [], [], 0⟩).all (fun q => !(q.email == demoDTO.email)) = true)
    ∧ (∃ m s2, addRepo ⟨[], [], [], 0⟩ demoDTO true = .ok (m, s2)
        ∧ m.id.isSome = true
        ∧ m.id = some (Session.nextId ⟨[], [], [], 0⟩)
        ∧ sessionGet s2 (Session.nextId ⟨[], [], [], 0⟩) = some m
        ∧ s2.db = Session.db ⟨[], [], [], 0⟩) :=
  ⟨rfl, rfl, rfl, C8_add_flush_get ⟨[], [], [], 0⟩ demoDTO rfl rfl rfl⟩

/-!
## Event publisher (`app/sb/client.py`)

`post_user_created_event` reads the topic name from the environment, builds
the `UserCreated` envelope, and sends one `ServiceBusMessage` whose body is
the JSON of the payload, whose application properties replicate the header
fields, and whose message id is a fresh `uuid4` (modelled as a caller-
supplied fresh string).  The whole body sits in a
`try/except ServiceBusError` that logs and swallows the transport error.
-/

/-- The payload DTO `S.UserResult`: exactly `email` and `phone`. -/
structure UserResult where
  email : String
  phone : String
deriving Repr, DecidableEq

/-- `S.UserCreatedHeaders` with its literal defaults. -/
structure UserCreatedHeaders where
  requestor_id : String
  content_type : String := "application/json"
  event_type : String := "UserCreated"
  version : String := "1.0.0"
deriving Repr, DecidableEq

/-- The `UserCreated` envelope: headers plus payload. -/
structure UserCreatedEnvelope where
  headers : UserCreatedHeaders
  payload : UserResult
deriving Repr, DecidableEq

/-- A transport-side delivery failure (`ServiceBusError`). -/
structure SBError where
  code : Nat
deriving Repr, DecidableEq

/-- The `ServiceBusMessage` handed to `sender.send_messages`: body is
`payload.model_dump_json(by_alias=True)` (the payload fields as a JSON
object), `application_properties` replicate the envelope headers for
broker-side filtering, `message_id = str(uuid.uuid4())`, and
`content_type = headers.content_type`. -/
structure SBMessage where
  body : List (String × String)
  applicationProperties : List (String × String)
  messageId : String
  contentType : String
deriving Repr, DecidableEq

/-- Message construction from `post_user_created_event` lines 60-74:
`headers = UserCreatedHeaders(requestor_id=user_result.email)`,
`message_envelope = UserCreated(headers=headers, payload=user_result)`,
then the `ServiceBusMessage` literal. -/
def buildUserCreatedMessage (user_result : UserResult) (freshId : String) : SBMessage :=
  let headers : UserCreatedHeaders := { requestor_id := user_result.email }
  let message_envelope : UserCreatedEnvelope :=
    { headers := headers, payload := user_result }
  { body := [("email", message_envelope.payload.email),
             ("phone", message_envelope.payload.phone)]
    applicationProperties :=
      [("eventType", message_envelope.headers.event_type),
       ("version", message_envelope.headers.version),
       ("requestorId", message_envelope.headers.requestor_id)]
    messageId := freshId
    contentType := headers.content_type }

/-- Observable outcome of one `post_user_created_event` call. -/
structure PublishResult where
  warned : Bool
  sent : Option SBMessage
  deliveryErrorLogged : Bool
  raised : Option SBError
deriving Repr, DecidableEq

/-- `post_user_created_event`: skip with a warning when
`SB_ECOMMERCE_USER_CREATED_TOPIC` is unset or empty (`if not topic_name`);
otherwise send the message; a `ServiceBusError` from the transport
(`transportErr`) is logged by the `except` clause and never re-raised. -/
def post_user_created_event (user_result : UserResult) (topic : Option String)
    (transportErr : Option SBError) (freshId : String) : PublishResult :=
  match topic with
  | none =>
    { warned := true, sent := none, deliveryErrorLogged := false, raised := none }
  | some t =>
    if t = "" then
      { warned := true, sent := none, deliveryErrorLogged := false, raised := none }
    else
      match transportErr with
      | some _ =>
        { warned := false, sent := none, deliveryErrorLogged := true, raised := none }
      | none =>
        { warned := false, sent := some (buildUserCreatedMessage user_result freshId),
          deliveryErrorLogged := false, raised := none }

/-- C5: `post_user_created_event` never raises; with the topic unset or
empty it warns, sends nothing and logs no delivery error; with a configured
topic a transport delivery error is logged and swallowed; and with a
configured topic and no transport error the message is sent without
warning. -/
theorem C5_publish_error_policy (user_result : UserResult)
    (topic : Option String) (transportErr : Option SBError) (freshId : String) :
    (post_user_created_event user_result topic transportErr freshId).raised = none
    ∧ ((topic = none ∨ topic = some "") →
        (post_user_created_event user_result topic transportErr freshId).warned = true
        ∧ (post_user_created_event user_result topic transportErr freshId).sent = none
        ∧ (post_user_created_event user_result topic transportErr freshId).deliveryErrorLogged = false)
    ∧ (∀ t e, topic = some t → t ≠ "" → transportErr = some e →
        (post_user_created_event user_result topic transportErr freshId).deliveryErrorLogged = true
        ∧ (post_user_created_event user_result topic transportErr freshId).raised = none)
    ∧ (∀ t, topic = some t → t ≠ "" → transportErr = none →
        (post_user_created_event user_result topic transportErr freshId).sent
          = some (buildUserCreatedMessage user_result freshId)
        ∧ (post_user_created_event user_result topic transportErr freshId).warned = false) := by
  cases topic with
  | none =>
    refine ⟨rfl, fun _ => ⟨rfl, rfl, rfl⟩, ?_, ?_⟩
    · rintro t e ht
      cases ht
    · rintro t ht
      cases ht
  | some t =>
    by_cases ht : t = ""
    · subst ht
      refine ⟨rfl, fun _ => ⟨rfl, rfl, rfl⟩, ?_, ?_⟩
      · rintro t' e ht' hne
        cases ht'
        exact absurd rfl hne
      · rintro t' ht' hne
        cases ht'
        exact absurd rfl hne
    · cases transportErr with
      | none =>
        refine ⟨?_, ?_, ?_, ?_⟩
        · simp [post_user_created_event, ht]
        · rintro (h | h)
          · cases h
          · injection h with h'
            exact absurd h' ht
        · rintro t' e ht' hne he
          cases he
        · rintro t' ht' hne hnone
          injection ht' with h'
          subst h'
          constructor <;> simp [post_user_created_event, ht]
      | some e =>
        refine ⟨?_, ?_, ?_, ?_⟩
        · simp [post_user_created_event, ht]
        · rintro (h | h)
          · cases h
          · injection h with h'
            exact absurd h' ht
        · rintro t' e' ht' hne he
          constructor <;> simp [post_user_created_event, ht]
        · rintro t' ht' hne hnone
          cases hnone

/-- Witness for `C5_publish_error_policy` with a missing topic. -/
theorem C5_publish_error_policy_witness :
    (post_user_created_event ⟨"a@b.c", "1"⟩ none (some ⟨7⟩) "id-1").raised = none
    ∧ (((none : Option String) = none ∨ (none : Option String) = some "") →
        (post_user_created_event ⟨"a@b.c", "1"⟩ none (some ⟨7⟩) "id-1").warned = true
        ∧ (post_user_created_event ⟨"a@b.c", "1"⟩ none (some ⟨7⟩) "id-1").sent = none
        ∧ (post_user_created_event ⟨"a@b.c", "1"⟩ none (some ⟨7⟩) "id-1").deliveryErrorLogged = false)
    ∧ (∀ t e, (none : Option String) = some t → t ≠ "" → (some (⟨7⟩ : SBError)) = some e →
        (post_user_created_event ⟨"a@b.c", "1"⟩ none (some ⟨7⟩) "id-1").deliveryErrorLogged = true
        ∧ (post_user_created_event ⟨"a@b.c", "1"⟩ none (some ⟨7⟩) "id-1").raised = none)
    ∧ (∀ t, (none : Option String) = some t → t ≠ "" → (some (⟨7⟩ : SBError)) = none →
        (post_user_created_event ⟨"a@b.c", "1"⟩ none (some ⟨7⟩) "id-1").sent
          = some (buildUserCreatedMessage ⟨"a@b.c", "1"⟩ "id-1")
        ∧ (post_user_created_event ⟨"a@b.c", "1"⟩ none (some ⟨7⟩) "id-1").warned = false) :=
  C5_publish_error_policy ⟨"a@b.c", "1"⟩ none (some ⟨7⟩) "id-1"

/-- C9: the message built for a `UserCreated` publish carries all the
envelope header values — `contentType = "application/json"`, and transport
application properties mirroring `eventType = "UserCreated"`,
`version = "1.0.0"` and `requestorId` (the requestor identity, which the
router sets to the created user's email) — a body that is exactly the
payload's `email` and `phone`, and the fresh per-publish message id, so two
publishes with distinct fresh identifiers carry distinct message ids. -/
theorem C9_event_wire_shape (u : UserResult) (id1 id2 : String) :
    (buildUserCreatedMessage u id1).contentType = "application/json"
    ∧ (buildUserCreatedMessage u id1).applicationProperties
        = [("eventType", "UserCreated"), ("version", "1.0.0"), ("requestorId", u.email)]
    ∧ (buildUserCreatedMessage u id1).body = [("email", u.email), ("phone", u.phone)]
    ∧ (buildUserCreatedMessage u id1).messageId = id1
    ∧ (id1 ≠ id2 →
        (buildUserCreatedMessage u id1).messageId ≠ (buildUserCreatedMessage u id2).messageId) := by
  exact ⟨rfl, rfl, rfl, rfl, fun h => h⟩

/-- Witness for `C9_event_wire_shape` at a concrete payload. -/
theorem C9_event_wire_shape_witness :
    (buildUserCreatedMessage ⟨"a@b.c", "42"⟩ "id-1").contentType = "application/json"
    ∧ (buildUserCreatedMessage ⟨"a@b.c", "42"⟩ "id-1").applicationProperties
        = [("eventType", "UserCreated"), ("version", "1.0.0"), ("requestorId", "a@b.c")]
    ∧ (buildUserCreatedMessage ⟨"a@b.c", "42"⟩ "id-1").body = [("email", "a@b.c"), ("phone", "42")]
    ∧ (buildUserCreatedMessage ⟨"a@b.c", "42"⟩ "id-1").messageId = "id-1"
    ∧ ("id-1" ≠ "id-2" →
        (buildUserCreatedMessage ⟨"a@b.c", "42"⟩ "id-1").messageId
          ≠ (buildUserCreatedMessage ⟨"a@b.c", "42"⟩ "id-2").messageId) :=
  C9_event_wire_shape ⟨"a@b.c", "42"⟩ "id-1" "id-2"

/-!
## The create-user request flow (`app/users/router.py`)

Inside `with session_manager(db_session) as uow`: `uow.users.add(user,
flush=True)`, `uow.commit()`, `post_user_created_event(...)`, return the
response model; the context exit closes the session (rolling back first if
an exception is in flight), and an escaping `IntegrityError` is mapped by
`integrity_error_handler` to HTTP 409.
-/

/-- `flushPending` never touches the `new` field of the state it threads. -/
theorem flushPending_new (l : List UserRow) :
    ∀ (s s' : Session), flushPending s l = .ok s' → s'.new = s.new := by
  induction l with
  | nil =>
    intro s s' h
    simp only [flushPending] at h
    cases h
    rfl
  | cons r rest ih =>
    intro s s' h
    simp only [flushPending] at h
    cases hf : flushOne s r with
    | error e => rw [hf] at h; cases h
    | ok s1 =>
      rw [hf] at h
      have h1 : s1.new = s.new := by
        simp only [flushOne] at hf
        by_cases hc : (s.db ++ s.tx).any (fun q => q.email == r.email) = true
        · rw [if_pos hc] at hf; cases hf
        · rw [if_neg hc] at hf
          cases hf
          rfl
      rw [← h1]
      exact ih s1 s' h

/-- A successful `session.flush()` leaves nothing staged. -/
theorem flushSession_ok_new (s s' : Session) (h : flushSession s = .ok s') :
    s'.new = [] := by
  simpa using flushPending_new s.new { s with new := [] } s' h

/-- Flushing a session with nothing staged is the identity. -/
theorem flushSession_of_new_nil (s : Session) (h : s.new = []) :
    flushSession s = .ok s := by
  obtain ⟨db, tx, nw, n⟩ := s
  simp only at h
  subst h
  rfl

/-- `session.commit()` on a fully flushed session makes the open
transaction durable. -/
theorem commitSession_of_flushed (s : Session) (h : s.new = []) :
    commitSession s = .ok { s with db := s.db ++ s.tx, tx := [] } := by
  unfold commitSession
  rw [flushSession_of_new_nil s h]

/-- A successful `add(dto, flush=True)` leaves nothing staged and the
returned entity sits in the open transaction. -/
theorem addRepo_ok_facts (s : Session) (dto : CreateUserDTO) (m : UserRow)
    (s1 : Session) (h : addRepo s dto true = .ok (m, s1)) :
    s1.new = [] ∧ m ∈ s1.tx := by
  simp only [addRepo] at h
  cases hf : flushSession { s with new := s.new ++ [mkUser dto] } with
  | error e => rw [hf] at h; cases h
  | ok s2 =>
    rw [hf] at h
    simp only [if_true] at h
    cases hl : s2.tx.getLast? with
    | none => rw [hl] at h; cases h
    | some mm =>
      rw [hl] at h
      injection h with h'
      injection h' with h1 h2
      constructor
      · rw [← h2]
        exact flushSession_ok_new _ _ hf
      · rw [← h2, ← h1]
        have hmem : mm ∈ s2.tx.getLast? := by rw [hl]; rfl
        obtain ⟨hne, heq⟩ := List.mem_getLast?_eq_getLast hmem
        rw [heq]
        exact List.getLast_mem hne

/-- Steps of the create-user flow, in execution order. -/
inductive FlowEv
  | addEv
  | commitEvF
  | publishAttemptEv
  | rollbackEvF
  | closeEvF
deriving Repr, DecidableEq

/-- HTTP status produced by `integrity_error_handler`
(`app/exception_handlers.py`): HTTP 409 CONFLICT. -/
def integrityErrorStatus : Nat := 409

/-- Result of a create-user request. -/
inductive CreateOutcome
  | created (u : UserRow)
  | conflict (status : Nat)
deriving Repr, DecidableEq

/-- Observables of one create-user request. -/
structure FlowResult where
  outcome : CreateOutcome
  db : List UserRow
  trace : List FlowEv
  publish : Option PublishResult
deriving Repr, DecidableEq

/-- The `create_user` handler: add with flush, explicit commit, post-commit
event publish, response; on an `IntegrityError` the unit-of-work exit rolls
back and closes, and the handler maps the re-raised error to HTTP 409. -/
def create_user_flow (s : Session) (dto : CreateUserDTO) (topic : Option String)
    (transportErr : Option SBError) (freshId : String) : FlowResult :=
  match addRepo s dto true with
  | .error _ =>
    { outcome := .conflict integrityErrorStatus
      db := (closeSession (rollbackSession s)).db
      trace := [FlowEv.addEv, FlowEv.rollbackEvF, FlowEv.closeEvF]
      publish := none }
  | .ok (m, s1) =>
    match commitSession s1 with
    | .error _ =>
      { outcome := .conflict integrityErrorStatus
        db := (closeSession (rollbackSession s1)).db
        trace := [FlowEv.addEv, FlowEv.rollbackEvF, FlowEv.closeEvF]
        publish := none }
    | .ok s2 =>
      let pub := post_user_created_event { email := m.email, phone := m.phone }
        topic transportErr freshId
      { outcome := .created m
        db := (closeSession s2).db
        trace := [FlowEv.addEv, FlowEv.commitEvF, FlowEv.publishAttemptEv, FlowEv.closeEvF]
        publish := some pub }

/-- The publish helper never lets an error escape (the body is wrapped in
`try/except ServiceBusError` and the skip path returns normally). -/
theorem post_event_never_raises (u : UserResult) (topic : Option String)
    (transportErr : Option SBError) (freshId : String) :
    (post_user_created_event u topic transportErr freshId).raised = none := by
  cases topic with
  | none => rfl
  | some t =>
    by_cases ht : t = ""
    · subst ht
      rfl
    · cases transportErr <;> simp [post_user_created_event, ht]

/-- The entity created by the first flushed insert on a clean session. -/
def demoCreated : UserRow := { mkUser demoDTO with id := some 0 }

/-- C3: on every successful create-user request the event publish is
attempted exactly once, strictly after the commit; the created entity is in
the durable store; the publish never raises (so a transport failure cannot
unwind the response); and the outcome is the same as it would have been
with a healthy transport. -/
theorem C3_publish_after_commit (s : Session) (dto : CreateUserDTO)
    (topic : Option String) (transportErr : Option SBError) (freshId : String)
    (m : UserRow)
    (hsucc : (create_user_flow s dto topic transportErr freshId).outcome
      = CreateOutcome.created m) :
    (create_user_flow s dto topic transportErr freshId).trace
        = [FlowEv.addEv, FlowEv.commitEvF, FlowEv.publishAttemptEv, FlowEv.closeEvF]
    ∧ (create_user_flow s dto topic transportErr freshId).trace.count
        FlowEv.publishAttemptEv = 1
    ∧ (create_user_flow s dto topic transportErr freshId).trace.indexOf
        FlowEv.commitEvF
      < (create_user_flow s dto topic transportErr freshId).trace.indexOf
        FlowEv.publishAttemptEv
    ∧ m ∈ (create_user_flow s dto topic transportErr freshId).db
    ∧ (∀ pr, (create_user_flow s dto topic transportErr freshId).publish = some pr →
        pr.raised = none)
    ∧ (create_user_flow s dto topic none freshId).outcome = CreateOutcome.created m := by
  cases ha : addRepo s dto true with
  | error e =>
    simp only [create_user_flow, ha] at hsucc
    exact CreateOutcome.noConfusion hsucc
  | ok ms =>
    obtain ⟨m', s1⟩ := ms
    obtain ⟨hnew, hmemtx⟩ := addRepo_ok_facts s dto m' s1 ha
    have hc := commitSession_of_flushed s1 hnew
    have hflow : create_user_flow s dto topic transportErr freshId =
        { outcome := CreateOutcome.created m'
          db := (closeSession { s1 with db := s1.db ++ s1.tx, tx := [] }).db
          trace := [FlowEv.addEv, FlowEv.commitEvF, FlowEv.publishAttemptEv, FlowEv.closeEvF]
          publish := some (post_user_created_event { email := m'.email, phone := m'.phone }
            topic transportErr freshId) } := by
      simp only [create_user_flow, ha, hc]
    have hflow0 : create_user_flow s dto topic none freshId =
        { outcome := CreateOutcome.created m'
          db := (closeSession { s1 with db := s1.db ++ s1.tx, tx := [] }).db
          trace := [FlowEv.addEv, FlowEv.commitEvF, FlowEv.publishAttemptEv, FlowEv.closeEvF]
          publish := some (post_user_created_event { email := m'.email, phone := m'.phone }
            topic none freshId) } := by
      simp only [create_user_flow, ha, hc]
    rw [hflow] at hsucc
    have hm : m' = m := by
      injection hsucc
    subst hm
    rw [hflow, hflow0]
    refine ⟨rfl, ?_, ?_, ?_, ?_, rfl⟩
    · show ([FlowEv.addEv, FlowEv.commitEvF, FlowEv.publishAttemptEv,
        FlowEv.closeEvF].count FlowEv.publishAttemptEv) = 1
      decide
    · show ([FlowEv.addEv, FlowEv.commitEvF, FlowEv.publishAttemptEv,
        FlowEv.closeEvF].indexOf FlowEv.commitEvF)
        < ([FlowEv.addEv, FlowEv.commitEvF, FlowEv.publishAttemptEv,
        FlowEv.closeEvF].indexOf FlowEv.publishAttemptEv)
      decide
    · simp only [closeSession]
      exact List.mem_append_right _ hmemtx
    · intro pr hpr
      injection hpr with hpr'
      rw [← hpr']
      exact post_event_never_raises _ _ _ _

/-- Witness for `C3_publish_after_commit` on a concrete request with a
failing transport. -/
theorem C3_publish_after_commit_witness :
    ((create_user_flow ⟨[], [], [], 0⟩ demoDTO (some "user-events") (some ⟨7⟩) "id-1").outcome
      = CreateOutcome.created demoCreated)
    ∧ ((create_user_flow ⟨[], [], [], 0⟩ demoDTO (some "user-events") (some ⟨7⟩) "id-1").trace
        = [FlowEv.addEv, FlowEv.commitEvF, FlowEv.publishAttemptEv, FlowEv.closeEvF]
    ∧ (create_user_flow ⟨[], [], [], 0⟩ demoDTO (some "user-events") (some ⟨7⟩) "id-1").trace.count
        FlowEv.publishAttemptEv = 1
    ∧ (create_user_flow ⟨[], [], [], 0⟩ demoDTO (some "user-events") (some ⟨7⟩) "id-1").trace.indexOf
        FlowEv.commitEvF
      < (create_user_flow ⟨[], [], [], 0⟩ demoDTO (some "user-events") (some ⟨7⟩) "id-1").trace.indexOf
        FlowEv.publishAttemptEv
    ∧ demoCreated ∈ (create_user_flow ⟨[], [], [], 0⟩ demoDTO (some "user-events") (some ⟨7⟩) "id-1").db
    ∧ (∀ pr, (create_user_flow ⟨[], [], [], 0⟩ demoDTO (some "user-events") (some ⟨7⟩) "id-1").publish
          = some pr → pr.raised = none)
    ∧ (create_user_flow ⟨[], [], [], 0⟩ demoDTO (some "user-events") none "id-1").outcome
        = CreateOutcome.created demoCreated) :=
  ⟨by decide,
   C3_publish_after_commit ⟨[], [], [], 0⟩ demoDTO (some "user-events") (some ⟨7⟩) "id-1"
     demoCreated (by decide)⟩

/-- C7: creating a user whose email is already stored (the `users.email`
UNIQUE constraint) makes the request fail with the conflict condition
(HTTP 409 via `integrity_error_handler`), publishes nothing, and leaves the
durable store unchanged — still exactly one row with that email. -/
theorem C7_duplicate_email_conflict (s : Session) (dto : CreateUserDTO)
    (topic : Option String) (transportErr : Option SBError) (freshId : String)
    (hnew : s.new = [])
    (hone : (s.db.filter (fun q => q.email == dto.email)).length = 1) :
    (create_user_flow s dto topic transportErr freshId).outcome
        = CreateOutcome.conflict integrityErrorStatus
    ∧ integrityErrorStatus = 409
    ∧ (create_user_flow s dto topic transportErr freshId).db = s.db
    ∧ ((create_user_flow s dto topic transportErr freshId).db.filter
        (fun q => q.email == dto.email)).length = 1
    ∧ (create_user_flow s dto topic transportErr freshId).trace.count
        FlowEv.publishAttemptEv = 0 := by
  have hex : ∃ q ∈ s.db, q.email = (mkUser dto).email := by
    have hne : s.db.filter (fun q => q.email == dto.email) ≠ [] := by
      intro h0
      rw [h0] at hone
      simp at hone
    obtain ⟨q, hq⟩ := List.exists_mem_of_ne_nil _ hne
    have hqf := List.mem_filter.mp hq
    exact ⟨q, hqf.1, by simpa [mkUser] using hqf.2⟩
  have herr : addRepo s dto true = .error .integrityError := by
    obtain ⟨db, tx, nw, n⟩ := s
    simp only at hnew hex
    subst hnew
    have hcond : (∃ x ∈ db, x.email = (mkUser dto).email)
        ∨ (∃ x ∈ tx, x.email = (mkUser dto).email) := Or.inl hex
    simp [addRepo, flushSession, flushPending, flushOne, hcond]
  have hflow : create_user_flow s dto topic transportErr freshId =
      { outcome := CreateOutcome.conflict integrityErrorStatus
        db := (closeSession (rollbackSession s)).db
        trace := [FlowEv.addEv, FlowEv.rollbackEvF, FlowEv.closeEvF]
        publish := none } := by
    simp only [create_user_flow, herr]
  rw [hflow]
  refine ⟨rfl, rfl, ?_, ?_, ?_⟩
  · simp [closeSession, rollbackSession]
  · simpa [closeSession, rollbackSession] using hone
  · show ([FlowEv.addEv, FlowEv.rollbackEvF, FlowEv.closeEvF].count
      FlowEv.publishAttemptEv) = 0
    decide

/-- Witness for `C7_duplicate_email_conflict`: the demo user already exists. -/
theorem C7_duplicate_email_conflict_witness :
    (Session.new ⟨[demoCreated], [], [], 1⟩ = [])
    ∧ ((Session.db ⟨[demoCreated], [], [], 1⟩).filter
        (fun q => q.email == demoDTO.email)).length = 1
    ∧ ((create_user_flow ⟨[demoCreated], [], [], 1⟩ demoDTO none none "id-2").outcome
        = CreateOutcome.conflict integrityErrorStatus
    ∧ integrityErrorStatus = 409
    ∧ (create_user_flow ⟨[demoCreated], [], [], 1⟩ demoDTO none none "id-2").db
        = Session.db ⟨[demoCreated], [], [], 1⟩
    ∧ ((create_user_flow ⟨[demoCreated], [], [], 1⟩ demoDTO none none "id-2").db.filter
        (fun q => q.email == demoDTO.email)).length = 1
    ∧ (create_user_flow ⟨[demoCreated], [], [], 1⟩ demoDTO none none "id-2").trace.count
        FlowEv.publishAttemptEv = 0) :=
  ⟨rfl, by decide,
   C7_duplicate_email_conflict ⟨[demoCreated], [], [], 1⟩ demoDTO none none "id-2"
     rfl (by decide)⟩

/-!
## Auth gate (`app/common/security.py`, `app/exception_handlers.py`)

`get_current_user` decodes the bearer token, requires the `sub` and `role`
claims to be present and non-empty, and requires the referenced user to
exist in the store; every failure raises `InvalidTokenError`, whose
constructor fixes HTTP 401.  `require_role(role)` wraps the handler and
reads the injected `current_user` kwarg: a falsy (absent or empty) value or
a role mismatch raises `UserNotAuthorized`, which `rbac_error_handler` maps
to HTTP 403; only an exact role match invokes the wrapped function.  A
request without a credential is rejected by the `OAuth2PasswordBearer`
dependency with HTTP 401 before the handler runs.
-/

/-- Failure conditions of the gate. -/
inductive AuthErr
  | invalidToken
  | notAuthorized
deriving Repr, DecidableEq

/-- HTTP statuses: `InvalidTokenError.__init__` passes
`status.HTTP_401_UNAUTHORIZED`; `rbac_error_handler` responds with
`status.HTTP_403_FORBIDDEN`. -/
def statusOfAuthErr : AuthErr → Nat
  | .invalidToken => 401
  | .notAuthorized => 403

/-- The claims of a decoded JWT payload: `payload.get("sub")` and
`payload.get("role")`. -/
structure TokenClaims where
  sub : Option String
  role : Option String
deriving Repr, DecidableEq

/-- `get_current_user`: `decoded = none` models a `JWTError` from
`decode_token` (caught and turned into `InvalidTokenError`); a missing or
empty `sub`/`role` claim is `InvalidTokenError`; the user lookup is
`uow.users.get_one(uow.users.model.email == user_name)` on the store, and a
missing user is `InvalidTokenError`; otherwise the returned value is the
dict `{"user_name": ..., "role": ...}`. -/
def get_current_user (decoded : Option TokenClaims) (store : List UserRow) :
    Except AuthErr (List (String × String)) :=
  match decoded with
  | none => .error .invalidToken
  | some payload =>
    match payload.sub, payload.role with
    | some user_name, some role =>
      if user_name = "" ∨ role = "" then .error .invalidToken
      else
        match store.find? (fun q => q.email == user_name) with
        | none => .error .invalidToken
        | some _ => .ok [("user_name", user_name), ("role", role)]
    | _, _ => .error .invalidToken

/-- The wrapper produced by `require_role(role)`: read
`kwargs.get("current_user")`; a falsy value (absent, or an empty dict)
raises `UserNotAuthorized`; `current_user.get("role") == role` invokes the
wrapped function; anything else raises `UserNotAuthorized`. -/
def require_role {A : Type} (role : String)
    (current_user : Option (List (String × String))) (call : Unit → A) :
    Except AuthErr A :=
  match current_user with
  | none => .error .notAuthorized
  | some cu =>
    if cu.isEmpty then .error .notAuthorized
    else
      match cu.lookup "role" with
      | some r => if r = role then .ok (call ()) else .error .notAuthorized
      | none => .error .notAuthorized

/-- Outcome of one gated request. -/
inductive GateOutcome
  | denied (status : Nat)
  | proceeds
deriving Repr, DecidableEq

/-- A gated request end to end: the `OAuth2PasswordBearer` dependency
rejects a missing credential with HTTP 401; then `get_current_user` runs,
then the `require_role` wrapper; errors are mapped to statuses by the
exception handlers. -/
def gated_request (required : String) (bearer : Option (Option TokenClaims))
    (store : List UserRow) : GateOutcome :=
  match bearer with
  | none => .denied 401
  | some decoded =>
    match get_current_user decoded store with
    | .error e => .denied (statusOfAuthErr e)
    | .ok cu =>
      match require_role required (some cu) (fun _ => ()) with
      | .error e => .denied (statusOfAuthErr e)
      | .ok _ => .proceeds

/-- C6: a missing credential, an undecodable token, a token without subject
or role claim, and a token whose referenced user is not in the store are
all rejected with the unauthenticated condition (HTTP 401); a decodable
token for an existing user with the wrong role is rejected with the
distinct forbidden condition (HTTP 403 ≠ 401); and with the required role
the request proceeds. -/
theorem C6_auth_gate (required : String) (store : List UserRow)
    (claims : TokenClaims) :
    gated_request required none store = GateOutcome.denied 401
    ∧ gated_request required (some none) store = GateOutcome.denied 401
    ∧ ((claims.sub = none ∨ claims.role = none
        ∨ claims.sub = some "" ∨ claims.role = some "") →
        gated_request required (some (some claims)) store = GateOutcome.denied 401)
    ∧ (∀ u r, claims.sub = some u → claims.role = some r → u ≠ "" → r ≠ "" →
        store.find? (fun q => q.email == u) = none →
        gated_request required (some (some claims)) store = GateOutcome.denied 401)
    ∧ (∀ u r w, claims.sub = some u → claims.role = some r → u ≠ "" → r ≠ "" →
        store.find? (fun q => q.email == u) = some w → r ≠ required →
        gated_request required (some (some claims)) store = GateOutcome.denied 403)
    ∧ (403 : Nat) ≠ 401
    ∧ (∀ u w, claims.sub = some u → claims.role = some required → u ≠ "" →
        required ≠ "" → store.find? (fun q => q.email == u) = some w →
        gated_request required (some (some claims)) store = GateOutcome.proceeds) := by
  obtain ⟨sub, role⟩ := claims
  refine ⟨rfl, rfl, ?_, ?_, ?_, by decide, ?_⟩
  · rintro (h | h | h | h) <;> simp only at h <;> subst h
    · rfl
    · cases sub with
      | none => rfl
      | some u =>
        simp [gated_request, get_current_user, statusOfAuthErr]
    · cases role with
      | none => rfl
      | some r =>
        simp [gated_request, get_current_user, statusOfAuthErr]
    · cases sub with
      | none => rfl
      | some u =>
        by_cases hu : u = "" <;>
          simp [gated_request, get_current_user, hu, statusOfAuthErr]
  · rintro u r hu hr hune hrne hfind
    simp only at hu hr
    subst hu
    subst hr
    simp [gated_request, get_current_user, hune, hrne, hfind, statusOfAuthErr]
  · rintro u r w hu hr hune hrne hfind hne
    simp only at hu hr
    subst hu
    subst hr
    simp [gated_request, get_current_user, require_role, hune, hrne, hfind, hne,
      statusOfAuthErr, List.lookup]
  · rintro u w hu hr hune hrne hfind
    simp only at hu hr
    subst hu
    subst hr
    simp [gated_request, get_current_user, require_role, hune, hrne, hfind,
      statusOfAuthErr, List.lookup]

/-- A stored user for the auth witnesses. -/
def adminRow : UserRow :=
  { id := some 9, first_name := "Root", last_name := none, email := "root@x.y"
    hashed_password := hashPassword "pw", phone := "0", address := "{}"
    role := "ADMIN", created_by := "sys", updated_by := "sys" }

/-- Witness for `C6_auth_gate` with a concrete store and claims. -/
theorem C6_auth_gate_witness :
    gated_request "ADMIN" none [adminRow] = GateOutcome.denied 401
    ∧ gated_request "ADMIN" (some none) [adminRow] = GateOutcome.denied 401
    ∧ (((some "root@x.y" : Option String) = none ∨ (some "ADMIN" : Option String) = none
        ∨ (some "root@x.y" : Option String) = some ""
        ∨ (some "ADMIN" : Option String) = some "") →
        gated_request "ADMIN" (some (some ⟨some "root@x.y", some "ADMIN"⟩)) [adminRow]
          = GateOutcome.denied 401)
    ∧ (∀ u r, (some "root@x.y" : Option String) = some u
        → (some "ADMIN" : Option String) = some r → u ≠ "" → r ≠ "" →
        [adminRow].find? (fun q => q.email == u) = none →
        gated_request "ADMIN" (some (some ⟨some "root@x.y", some "ADMIN"⟩)) [adminRow]
          = GateOutcome.denied 401)
    ∧ (∀ u r w, (some "root@x.y" : Option String) = some u
        → (some "ADMIN" : Option String) = some r → u ≠ "" → r ≠ "" →
        [adminRow].find? (fun q => q.email == u) = some w → r ≠ "ADMIN" →
        gated_request "ADMIN" (some (some ⟨some "root@x.y", some "ADMIN"⟩)) [adminRow]
          = GateOutcome.denied 403)
    ∧ (403 : Nat) ≠ 401
    ∧ (∀ u w, (some "root@x.y" : Option String) = some u
        → (some "ADMIN" : Option String) = some "ADMIN" → u ≠ "" →
        ("ADMIN" : String) ≠ "" → [adminRow].find? (fun q => q.email == u) = some w →
        gated_request "ADMIN" (some (some ⟨some "root@x.y", some "ADMIN"⟩)) [adminRow]
          = GateOutcome.proceeds) :=
  C6_auth_gate "ADMIN" [adminRow] ⟨some "root@x.y", some "ADMIN"⟩

/-- C10: the `require_role` wrapper raises the same `UserNotAuthorized`
(forbidden, HTTP 403 — not the unauthenticated 401) condition for an absent
identity, for an empty identity dict and for a wrong role; and it invokes
the wrapped function exactly when an identity is present, non-empty and its
role equals the required one. -/
theorem C10_require_role_wrapper (role r' : String)
    (d : List (String × String)) (v : Nat) :
    require_role role none (fun _ => v) = Except.error AuthErr.notAuthorized
    ∧ require_role role (some []) (fun _ => v) = Except.error AuthErr.notAuthorized
    ∧ (d.lookup "role" = some r' → r' ≠ role →
        require_role role (some d) (fun _ => v) = Except.error AuthErr.notAuthorized)
    ∧ (∀ cu res, require_role role cu (fun _ => v) = Except.ok res →
        ∃ dd, cu = some dd ∧ dd ≠ [] ∧ dd.lookup "role" = some role ∧ res = v)
    ∧ statusOfAuthErr AuthErr.notAuthorized = 403
    ∧ statusOfAuthErr AuthErr.notAuthorized ≠ statusOfAuthErr AuthErr.invalidToken := by
  refine ⟨rfl, rfl, ?_, ?_, rfl, by decide⟩
  · intro hl hne
    cases hd : d.isEmpty with
    | true =>
      simp [require_role, hd]
    | false =>
      simp [require_role, hd, hl, hne]
  · rintro cu res h
    cases cu with
    | none => cases h
    | some dd =>
      simp only [require_role] at h
      cases hd : dd.isEmpty with
      | true => rw [hd] at h; cases h
      | false =>
        rw [hd] at h
        simp only [Bool.false_eq_true, if_false] at h
        cases hl : dd.lookup "role" with
        | none => rw [hl] at h; cases h
        | some r0 =>
          rw [hl] at h
          by_cases hr : r0 = role
          · have h' : v = res := by
              simpa [hr] using h
            refine ⟨dd, rfl, ?_, ?_, h'.symm⟩
            · intro hnil
              subst hnil
              simp at hd
            · rw [hl, hr]
          · exfalso
            simp [hr] at h

/-- Witness for `C10_require_role_wrapper` at concrete values. -/
theorem C10_require_role_wrapper_witness :
    require_role "ADMIN" none (fun _ => 7) = Except.error AuthErr.notAuthorized
    ∧ require_role "ADMIN" (some []) (fun _ => 7) = Except.error AuthErr.notAuthorized
    ∧ ([("role", "CUSTOMER")].lookup "role" = some "CUSTOMER" → "CUSTOMER" ≠ "ADMIN" →
        require_role "ADMIN" (some [("role", "CUSTOMER")]) (fun _ => 7)
          = Except.error AuthErr.notAuthorized)
    ∧ (∀ cu res, require_role "ADMIN" cu (fun _ => 7) = Except.ok res →
        ∃ dd, cu = some dd ∧ dd ≠ [] ∧ dd.lookup "role" = some "ADMIN" ∧ res = 7)
    ∧ statusOfAuthErr AuthErr.notAuthorized = 403
    ∧ statusOfAuthErr AuthErr.notAuthorized ≠ statusOfAuthErr AuthErr.invalidToken :=
  C10_require_role_wrapper "ADMIN" "CUSTOMER" [("role", "CUSTOMER")] 7
